import Mathlib

/-!
Verification development for the pyEQL EOS engine module (`pyEQL/engines.py`).

The module is shallowly embedded: dimensioned quantities are modelled by their
magnitudes as rationals (ℚ) in the units fixed by the source (mol/kg for
molality and ionic strength, mol for amounts, L for volumes), external
collaborators (the solution container, the salt-decomposition service, the
parameter store, and the correlation-formula library) are passed as explicit
data, and Python exceptions are modelled with `Except` / `Option`.
-/

namespace PyEQL

/-- A binary salt as produced by the external salt-decomposition collaborator
(`pyEQL.salt_ion_match`): one cation/anion pair with formula, ion identities,
charges `z_cation`/`z_anion` and stoichiometric coefficients
`nu_cation`/`nu_anion`. -/
structure Salt where
  formula : String
  cation : String
  anion : String
  z_cation : Int
  z_anion : Int
  nu_cation : Int
  nu_anion : Int
deriving DecidableEq, Repr

/-- A solute entry of the solution container: its formal charge (used by the
Debye-Hückel / Guntelberg / Davies calls) and its mole amount (used by the
partial-molar-volume loop of `get_solute_volume`). -/
structure Solute where
  formal_charge : Int
  moles : ℚ
deriving DecidableEq, Repr

/-- The external parameter store (`pyEQL.paramsDB`), keyed by chemical formula
and parameter kind.  `none` models `has_parameter` returning false; `some`
carries the coefficient tuple that `get_parameter(...).get_value()` yields. -/
structure ParamDB where
  pitzer_parameters_activity : String → Option (ℚ × ℚ × ℚ × ℚ)
  pitzer_parameters_volume : String → Option (ℚ × ℚ × ℚ × ℚ × ℚ)
  partial_molar_volume : String → Option ℚ

/-- The external correlation-formula library (`pyEQL.activity_correction`):
pure numeric functions taken as given, with the exact argument lists used at
the call sites in `engines.py` (temperature is passed as a string, as in
`str(solution.temperature)`). -/
structure CorrelationLib where
  get_activity_coefficient_pitzer :
    ℚ → ℚ → ℚ → ℚ → ℚ → ℚ → ℚ → ℚ → Int → Int → Int → Int → String → ℚ
  get_activity_coefficient_debyehuckel : ℚ → Int → String → ℚ
  get_activity_coefficient_guntelberg : ℚ → Int → String → ℚ
  get_activity_coefficient_davies : ℚ → Int → String → ℚ
  get_osmotic_coefficient_pitzer :
    ℚ → ℚ → ℚ → ℚ → ℚ → ℚ → ℚ → ℚ → Int → Int → Int → Int → String → ℚ
  get_apparent_volume_pitzer :
    ℚ → ℚ → ℚ → ℚ → ℚ → ℚ → ℚ → ℚ → ℚ → Int → Int → Int → Int → String → ℚ

/-- The slice of the solution container read by the engine: the components
mapping (an association list, mirroring the dict `solution.components`), the
ionic strength magnitude in mol/kg, the temperature string, and the three
salt-decomposition views used by the three operations
(`generate_salt_list(solution)` for activity, `solution.get_salt_list()` with
per-salt concentrations for osmotic, `solution.get_salt()` for volume),
plus the `get_amount` accessors in mol/kg and mol. -/
structure Solution where
  components : List (String × Solute)
  ionic_strength : ℚ
  temperature : String
  salt_list : List Salt
  salt_conc_list : List (Salt × ℚ)
  dominant_salt : Salt
  amount_molal : String → ℚ
  amount_mol : String → ℚ

/-- Python dict access `solution.components[solute]`, as an association-list
lookup: `none` models a `KeyError`. -/
def lookupComponent (components : List (String × Solute)) (solute : String) :
    Option Solute :=
  (components.find? fun p => p.1 == solute).map Prod.snd

/-- The salt-matching loop of `get_activity_coefficient` (engines.py lines
212-216): `Salt = None`, then for each item of the salt list, if the solute is
the item's cation or anion, overwrite `Salt` with the item — no break, so a
later match overwrites an earlier one. -/
def findSalt (solute : String) (salt_list : List Salt) : Option Salt :=
  salt_list.foldl
    (fun acc item =>
      if solute == item.cation || solute == item.anion then some item else acc)
    none

/-- Modelled from the spec: `Salt.get_effective_molality`, implemented in the
external `pyEQL.salt_ion_match` collaborator (not under src).  Spec §3:
`m_eff = 2·I / (ν_cation·z_cation² + ν_anion·z_anion²)`. -/
def effective_molality (s : Salt) (I : ℚ) : ℚ :=
  2 * I / ((s.nu_cation : ℚ) * (s.z_cation : ℚ) ^ 2
    + (s.nu_anion : ℚ) * (s.z_anion : ℚ) ^ 2)

/-- The alpha1/alpha2 selection of `get_activity_coefficient` (engines.py
lines 238-247): tests the STOICHIOMETRIC coefficients, `nu_cation >= 2 and
nu_anion <= -2`, then `nu_cation >= 3 or nu_anion <= -3`. -/
def alpha_activity (s : Salt) : ℚ × ℚ :=
  if 2 ≤ s.nu_cation ∧ s.nu_anion ≤ -2 then
    if 3 ≤ s.nu_cation ∨ s.nu_anion ≤ -3 then (2, 50) else (7 / 5, 12)
  else (2, 0)

/-- The alpha1/alpha2 selection of `get_osmotic_coefficient` (engines.py lines
423-432): tests the CHARGES, `z_cation >= 2 and z_anion <= -2`, then
`z_cation >= 3 or z_anion <= -3`. -/
def alpha_osmotic (s : Salt) : ℚ × ℚ :=
  if 2 ≤ s.z_cation ∧ s.z_anion ≤ -2 then
    if 3 ≤ s.z_cation ∨ s.z_anion ≤ -3 then (2, 50) else (7 / 5, 12)
  else (2, 0)

/-- The alpha1/alpha2 selection of `get_solute_volume` (engines.py lines
510-519): a same-sign test on the stoichiometric coefficients,
`nu_cation >= 2 and nu_anion >= 2`, then `nu_cation >= 3 or nu_anion >= 3`. -/
def alpha_volume (s : Salt) : ℚ × ℚ :=
  if 2 ≤ s.nu_cation ∧ 2 ≤ s.nu_anion then
    if 3 ≤ s.nu_cation ∨ 3 ≤ s.nu_anion then (2, 50) else (7 / 5, 12)
  else (2, 0)

/-- Python exceptions surfaced by the embedded operations. -/
inductive PyErr
  | keyError
deriving DecidableEq, Repr

/-- Which branch of `NativeEOS.get_activity_coefficient` produced the result;
`noSalt` and `highIonicStrength` are the two warning-and-degrade branches. -/
inductive ActivityBranch
  | pitzer
  | debyeHuckel
  | guntelberg
  | davies
  | highIonicStrength
  | noSalt
deriving DecidableEq, Repr

/-- `NativeEOS.get_activity_coefficient` (engines.py lines 133-323).  The dict
access `solution.components[solute]` happens first and raises `KeyError` for
an unknown solute; then the salt-matching loop; a missing salt returns unit
activity with a warning; otherwise Pitzer when activity parameters exist, and
otherwise the ionic-strength ladder `I <= 0.005` Debye-Hückel,
`I <= 0.1` Guntelberg, `I <= 0.5` Davies, else unit with a warning.  The
branch tag records which model produced the value. -/
def get_activity_coefficient (lib : CorrelationLib) (db : ParamDB)
    (solution : Solution) (solute : String) :
    Except PyErr (ActivityBranch × ℚ) :=
  match lookupComponent solution.components solute with
  | none => .error .keyError
  | some ion =>
    match findSalt solute solution.salt_list with
    | none => .ok (.noSalt, 1)
    | some s =>
      match db.pitzer_parameters_activity s.formula with
      | some p =>
        let a := alpha_activity s
        let molality := effective_molality s solution.ionic_strength
        .ok (.pitzer, lib.get_activity_coefficient_pitzer
          solution.ionic_strength molality a.1 a.2
          p.1 p.2.1 p.2.2.1 p.2.2.2
          s.z_cation s.z_anion s.nu_cation s.nu_anion solution.temperature)
      | none =>
        if solution.ionic_strength ≤ 1 / 200 then
          .ok (.debyeHuckel, lib.get_activity_coefficient_debyehuckel
            solution.ionic_strength ion.formal_charge solution.temperature)
        else if solution.ionic_strength ≤ 1 / 10 then
          .ok (.guntelberg, lib.get_activity_coefficient_guntelberg
            solution.ionic_strength ion.formal_charge solution.temperature)
        else if solution.ionic_strength ≤ 1 / 2 then
          .ok (.davies, lib.get_activity_coefficient_davies
            solution.ionic_strength ion.formal_charge solution.temperature)
        else
          .ok (.highIonicStrength, 1)

/-- The branch tag of `get_activity_coefficient`, `none` when it raised. -/
def activityBranch (lib : CorrelationLib) (db : ParamDB)
    (solution : Solution) (solute : String) : Option ActivityBranch :=
  match get_activity_coefficient lib db solution solute with
  | .ok r => some r.1
  | .error _ => none

/-- One iteration of the salt loop of `get_osmotic_coefficient` (engines.py
lines 415-478), acting on the accumulator pair
(`effective_osmotic_sum`, `molality_sum`): skip the solvent pseudo-salt HOH;
otherwise add `concentration × (Pitzer osmotic coefficient)` when activity
Pitzer parameters exist, else `concentration × 1` (with a warning), and add
the concentration to the weight sum either way. -/
def osmotic_step (lib : CorrelationLib) (db : ParamDB) (I : ℚ) (temp : String)
    (acc : ℚ × ℚ) (p : Salt × ℚ) : ℚ × ℚ :=
  if p.1.formula = "HOH" then acc
  else
    let a := alpha_osmotic p.1
    let conc := p.2
    let phi :=
      match db.pitzer_parameters_activity p.1.formula with
      | some q => lib.get_osmotic_coefficient_pitzer I conc a.1 a.2
          q.1 q.2.1 q.2.2.1 q.2.2.2
          p.1.z_cation p.1.z_anion p.1.nu_cation p.1.nu_anion temp
      | none => 1
    (acc.1 + conc * phi, acc.2 + conc)

/-- `NativeEOS.get_osmotic_coefficient` (engines.py lines 325-480): fold the
salt loop over the salt/concentration list, then return
`effective_osmotic_sum / molality_sum`.  The final division is unguarded in
the source; `none` models the undefined zero-divide outcome when the
accumulated weight is zero. -/
def get_osmotic_coefficient (lib : CorrelationLib) (db : ParamDB)
    (solution : Solution) : Option ℚ :=
  let r := solution.salt_conc_list.foldl
    (osmotic_step lib db solution.ionic_strength solution.temperature) (0, 0)
  if r.2 = 0 then none else some (r.1 / r.2)

/-- The individual osmotic coefficient the salt loop computes for one salt at
one concentration: the Pitzer osmotic correlation when activity Pitzer
parameters exist for the salt's formula, and 1 otherwise. -/
def salt_osmotic_coefficient (lib : CorrelationLib) (db : ParamDB) (I : ℚ)
    (temp : String) (s : Salt) (conc : ℚ) : ℚ :=
  match db.pitzer_parameters_activity s.formula with
  | some q => lib.get_osmotic_coefficient_pitzer I conc
      (alpha_osmotic s).1 (alpha_osmotic s).2
      q.1 q.2.1 q.2.2.1 q.2.2.2
      s.z_cation s.z_anion s.nu_cation s.nu_anion temp
  | none => 1

/-- The Pitzer head of `get_solute_volume` (engines.py lines 498-549): when
apparent-molar-volume Pitzer parameters exist for the dominant salt, the
molality argument is the simple mean of the two ions' molal amounts, alpha1
and alpha2 come from the volume-specific table, and the apparent volume is
scaled by `(n_cation/ν_cation + n_anion/ν_anion)/2`; zero otherwise. -/
def pitzer_volume_contribution (lib : CorrelationLib) (db : ParamDB)
    (solution : Solution) : ℚ :=
  match db.pitzer_parameters_volume solution.dominant_salt.formula with
  | some q =>
    let s := solution.dominant_salt
    let molality := (solution.amount_molal s.cation
      + solution.amount_molal s.anion) / 2
    let a := alpha_volume s
    let apparent_vol := lib.get_apparent_volume_pitzer
      solution.ionic_strength molality a.1 a.2
      q.1 q.2.1 q.2.2.1 q.2.2.2.1 q.2.2.2.2
      s.z_cation s.z_anion s.nu_cation s.nu_anion solution.temperature
    apparent_vol * (solution.amount_mol s.cation / (s.nu_cation : ℚ)
      + solution.amount_mol s.anion / (s.nu_anion : ℚ)) / 2
  | none => 0

/-- One iteration of the per-solute loop of `get_solute_volume` (engines.py
lines 553-572), acting on the running `solute_vol`: skip water; skip the
dominant salt's own ions when the Pitzer head already accounted for them; add
`partial_molar_volume × moles` when the store has the parameter; otherwise
leave the sum unchanged (warning only). -/
def pmv_step (db : ParamDB) (s : Salt) (pitzer_calc : Bool)
    (acc : ℚ) (p : String × Solute) : ℚ :=
  if p.1 = "H2O" ∨ p.1 = "HOH" then acc
  else if pitzer_calc = true ∧ (p.1 = s.anion ∨ p.1 = s.cation) then acc
  else
    match db.partial_molar_volume p.1 with
    | some v => acc + v * p.2.moles
    | none => acc

/-- `NativeEOS.get_solute_volume` (engines.py lines 482-574): the Pitzer head
for the dominant salt followed by the per-solute partial-molar-volume loop;
never raises, returns the total volume (magnitude in L). -/
def get_solute_volume (lib : CorrelationLib) (db : ParamDB)
    (solution : Solution) : ℚ :=
  let s := solution.dominant_salt
  let pitzer_calc := (db.pitzer_parameters_volume s.formula).isSome
  solution.components.foldl (pmv_step db s pitzer_calc)
    (pitzer_volume_contribution lib db solution)

/-- `NativeEOS.equilibrate` (engines.py lines 576-579): the method body is a
docstring only, so the call returns `None` without raising and without
modifying the solution.  `.ok` carries the (unchanged) solution; an `.error`
would model a raised exception. -/
def NativeEOS_equilibrate (solution : Solution) : Except PyErr Solution :=
  .ok solution

/-! ### Concrete fixtures for evaluation -/

/-- A 1:1 salt (NaCl): charges +1 and -1, stoichiometry 1/1. -/
def naclSalt : Salt :=
  { formula := "NaCl", cation := "Na+", anion := "Cl-",
    z_cation := 1, z_anion := -1, nu_cation := 1, nu_anion := 1 }

/-- Another 1:1 salt (KBr). -/
def kbrSalt : Salt :=
  { formula := "KBr", cation := "K+", anion := "Br-",
    z_cation := 1, z_anion := -1, nu_cation := 1, nu_anion := 1 }

/-- The solvent pseudo-salt HOH produced by the salt decomposition for water. -/
def hohSalt : Salt :=
  { formula := "HOH", cation := "H+", anion := "OH-",
    z_cation := 1, z_anion := -1, nu_cation := 1, nu_anion := 1 }

/-- A 2:2 charge-type salt (MgSO4): charges +2 and -2, stoichiometry 1/1. -/
def mgso4Salt : Salt :=
  { formula := "MgSO4", cation := "Mg+2", anion := "SO4-2",
    z_cation := 2, z_anion := -2, nu_cation := 1, nu_anion := 1 }

/-- A correlation library whose Pitzer activity/osmotic entries return their
`alpha1` argument, making the alpha value actually passed by the engine
observable in the result; the remaining entries return 0. -/
def echoLib : CorrelationLib :=
  { get_activity_coefficient_pitzer := fun _ _ a1 _ _ _ _ _ _ _ _ _ _ => a1
    get_activity_coefficient_debyehuckel := fun _ _ _ => 0
    get_activity_coefficient_guntelberg := fun _ _ _ => 0
    get_activity_coefficient_davies := fun _ _ _ => 0
    get_osmotic_coefficient_pitzer := fun _ _ a1 _ _ _ _ _ _ _ _ _ _ => a1
    get_apparent_volume_pitzer := fun _ _ _ _ _ _ _ _ _ _ _ _ _ _ => 0 }

/-- A parameter store holding (zero) Pitzer coefficients for every formula. -/
def allParamsDB : ParamDB :=
  { pitzer_parameters_activity := fun _ => some (0, 0, 0, 0)
    pitzer_parameters_volume := fun _ => some (0, 0, 0, 0, 0)
    partial_molar_volume := fun _ => some 0 }

/-- A parameter store with no stored parameters at all. -/
def noParamsDB : ParamDB :=
  { pitzer_parameters_activity := fun _ => none
    pitzer_parameters_volume := fun _ => none
    partial_molar_volume := fun _ => none }

/-- A 1 mol/kg MgSO4 solution slice. -/
def mgso4Solution : Solution :=
  { components := [("Mg+2", { formal_charge := 2, moles := 1 }),
      ("SO4-2", { formal_charge := -2, moles := 1 })]
    ionic_strength := 4
    temperature := "25 degC"
    salt_list := [mgso4Salt]
    salt_conc_list := [(mgso4Salt, 1)]
    dominant_salt := mgso4Salt
    amount_molal := fun _ => 1
    amount_mol := fun _ => 1 }

/-- An NaCl solution slice with an adjustable ionic strength, for probing the
ionic-strength ladder boundaries. -/
def boundarySolution (I : ℚ) : Solution :=
  { components := [("Na+", { formal_charge := 1, moles := 1 }),
      ("Cl-", { formal_charge := -1, moles := 1 })]
    ionic_strength := I
    temperature := "25 degC"
    salt_list := [naclSalt]
    salt_conc_list := [(naclSalt, 1)]
    dominant_salt := naclSalt
    amount_molal := fun _ => 1
    amount_mol := fun _ => 1 }

/-- A solution whose components contain an ion (K+) that belongs to no salt of
the decomposition. -/
def strayIonSolution : Solution :=
  { components := [("K+", { formal_charge := 1, moles := 1 })]
    ionic_strength := 1
    temperature := "25 degC"
    salt_list := [naclSalt]
    salt_conc_list := [(naclSalt, 1)]
    dominant_salt := naclSalt
    amount_molal := fun _ => 1
    amount_mol := fun _ => 1 }

/-- A pure-water solution slice: the decomposition yields only the solvent
pseudo-salt HOH. -/
def pureWaterSolution : Solution :=
  { components := [("H2O", { formal_charge := 0, moles := 55 })]
    ionic_strength := 0
    temperature := "25 degC"
    salt_list := [hohSalt]
    salt_conc_list := [(hohSalt, 55)]
    dominant_salt := hohSalt
    amount_molal := fun _ => 0
    amount_mol := fun _ => 0 }

/-- A solution slice decomposing into two distinct salts at equal
concentration 3 mol/kg. -/
def twoSaltSolution : Solution :=
  { components := [("Na+", { formal_charge := 1, moles := 3 }),
      ("K+", { formal_charge := 1, moles := 3 }),
      ("Cl-", { formal_charge := -1, moles := 3 }),
      ("Br-", { formal_charge := -1, moles := 3 })]
    ionic_strength := 6
    temperature := "25 degC"
    salt_list := [naclSalt, kbrSalt]
    salt_conc_list := [(naclSalt, 3), (kbrSalt, 3)]
    dominant_salt := naclSalt
    amount_molal := fun _ => 3
    amount_mol := fun _ => 3 }

/-! ### Claim theorems -/

/-- Claim C1 (evaluation of the divergence): the alpha table is NOT applied
identically in the two functions.  For a 2:2 charge-type salt such as MgSO4
(`z_cation = 2`, `z_anion = -2`, `nu_cation = nu_anion = 1`),
`get_activity_coefficient` selects `alpha1 = 2`, `alpha2 = 0` (its test reads
the stoichiometric coefficients `nu`, and `nu_anion <= -2` is false for the
positive stoichiometric coefficient), while `get_osmotic_coefficient` selects
`alpha1 = 1.4`, `alpha2 = 12` from the charge-based test the claim describes.
With a library that echoes the `alpha1` argument it receives, the two calls on
the same MgSO4 solution observably receive different alpha values. -/
theorem claim1_alpha_tables_diverge :
    alpha_activity mgso4Salt = (2, 0) ∧
    alpha_osmotic mgso4Salt = (7 / 5, 12) ∧
    alpha_activity mgso4Salt ≠ alpha_osmotic mgso4Salt ∧
    get_activity_coefficient echoLib allParamsDB mgso4Solution "Mg+2"
      = .ok (.pitzer, 2) ∧
    get_osmotic_coefficient echoLib allParamsDB mgso4Solution = some (7 / 5) := by
  refine ⟨rfl, rfl, ?_, rfl, ?_⟩
  · have ha : alpha_activity mgso4Salt = (2, 0) := rfl
    have hb : alpha_osmotic mgso4Salt = (7 / 5, 12) := rfl
    rw [ha, hb]
    intro h
    have h2 := congrArg Prod.snd h
    norm_num at h2
  · show (if ((0 : ℚ) + 1 * (7 / 5), (0 : ℚ) + 1).2 = 0 then none
      else some (((0 : ℚ) + 1 * (7 / 5), (0 : ℚ) + 1).1
        / ((0 : ℚ) + 1 * (7 / 5), (0 : ℚ) + 1).2)) = some (7 / 5)
    norm_num

/-- Claim C4 (evaluation of the divergence): `NativeEOS.equilibrate` has an
empty body, so for every solution it silently returns with the solution
unchanged and raises nothing — it does not fail with a
`NotImplementedError`-class signal as the claim requires. -/
theorem claim4_equilibrate_is_silent_noop (solution : Solution) :
    NativeEOS_equilibrate solution = .ok solution := rfl

/-- The overwriting fold of the salt-matching loop selects the last match of
the list: it equals `find?` over the reversed list, with the loop's own
match predicate. -/
theorem foldl_overwrite_eq_find_reverse (solute : String) (l : List Salt)
    (acc : Option Salt) :
    l.foldl
      (fun acc item =>
        if solute == item.cation || solute == item.anion then some item
        else acc) acc
    = match l.reverse.find?
        (fun item => solute == item.cation || solute == item.anion) with
      | some s => some s
      | none => acc := by
  induction l using List.reverseRecOn generalizing acc with
  | nil => simp
  | append_singleton l a ih =>
    rw [List.foldl_append, List.foldl_cons, List.foldl_nil,
      List.reverse_append, List.reverse_singleton, List.singleton_append]
    by_cases h : (solute == a.cation || solute == a.anion) = true
    · rw [if_pos h]
      simp [List.find?, h]
    · rw [if_neg h, ih]
      simp [List.find?, h]

/-- Claim C9: the salt used by `get_activity_coefficient` is the LAST salt of
the decomposition list whose cation or anion is the requested solute — the
matching loop overwrites without breaking — i.e. `findSalt` (the embedding of
that loop, on which `get_activity_coefficient` branches) returns `find?` over
the reversed salt list. -/
theorem claim9_last_matching_salt_wins (solute : String) (l : List Salt) :
    findSalt solute l
      = l.reverse.find?
          (fun item => solute == item.cation || solute == item.anion) := by
  rw [findSalt, foldl_overwrite_eq_find_reverse]
  cases l.reverse.find?
      (fun item => solute == item.cation || solute == item.anion) <;> rfl

/-- Claim C2: with a matching salt in hand, `get_activity_coefficient` selects
the model in strict priority order, boundaries inclusive on the lower model:
Pitzer whenever activity parameters exist for the salt's formula; otherwise
Debye-Hückel when `I ≤ 0.005`, Guntelberg when `0.005 < I ≤ 0.1`, Davies when
`0.1 < I ≤ 0.5`, and the unit-coefficient fallback only when `0.5 < I`. -/
theorem claim2_activity_model_priority (lib : CorrelationLib) (db : ParamDB)
    (sol : Solution) (solute : String) (s : Salt)
    (hion : (lookupComponent sol.components solute).isSome = true)
    (hsalt : findSalt solute sol.salt_list = some s) :
    ((db.pitzer_parameters_activity s.formula).isSome = true →
      activityBranch lib db sol solute = some .pitzer) ∧
    (db.pitzer_parameters_activity s.formula = none →
      sol.ionic_strength ≤ 1 / 200 →
      activityBranch lib db sol solute = some .debyeHuckel) ∧
    (db.pitzer_parameters_activity s.formula = none →
      1 / 200 < sol.ionic_strength → sol.ionic_strength ≤ 1 / 10 →
      activityBranch lib db sol solute = some .guntelberg) ∧
    (db.pitzer_parameters_activity s.formula = none →
      1 / 10 < sol.ionic_strength → sol.ionic_strength ≤ 1 / 2 →
      activityBranch lib db sol solute = some .davies) ∧
    (db.pitzer_parameters_activity s.formula = none →
      1 / 2 < sol.ionic_strength →
      activityBranch lib db sol solute = some .highIonicStrength) := by
  obtain ⟨ion, hion2⟩ := Option.isSome_iff_exists.mp hion
  refine ⟨?_, ?_, ?_, ?_, ?_⟩
  · intro hp
    obtain ⟨p, hp2⟩ := Option.isSome_iff_exists.mp hp
    simp [activityBranch, get_activity_coefficient, hion2, hsalt, hp2]
  · intro hp hI
    simp only [activityBranch, get_activity_coefficient, hion2, hsalt, hp]
    rw [if_pos hI]
  · intro hp h1 h2
    simp only [activityBranch, get_activity_coefficient, hion2, hsalt, hp]
    rw [if_neg (not_le.mpr h1), if_pos h2]
  · intro hp h1 h2
    have n1 : ¬sol.ionic_strength ≤ 1 / 200 :=
      not_le.mpr (lt_trans (by norm_num) h1)
    simp only [activityBranch, get_activity_coefficient, hion2, hsalt, hp]
    rw [if_neg n1, if_neg (not_le.mpr h1), if_pos h2]
  · intro hp h1
    have n1 : ¬sol.ionic_strength ≤ 1 / 200 :=
      not_le.mpr (lt_trans (by norm_num) h1)
    have n2 : ¬sol.ionic_strength ≤ 1 / 10 :=
      not_le.mpr (lt_trans (by norm_num) h1)
    simp only [activityBranch, get_activity_coefficient, hion2, hsalt, hp]
    rw [if_neg n1, if_neg n2, if_neg (not_le.mpr h1)]

/-- Claim C2 witness: at ionic strengths exactly 0.005, 0.1 and 0.5 with no
Pitzer parameters, a concrete NaCl solution selects the Debye-Hückel,
Guntelberg and Davies branches respectively (boundaries inclusive on the
lower model). -/
theorem claim2_activity_model_priority_witness :
    activityBranch echoLib noParamsDB (boundarySolution (1 / 200)) "Na+"
      = some .debyeHuckel ∧
    activityBranch echoLib noParamsDB (boundarySolution (1 / 10)) "Na+"
      = some .guntelberg ∧
    activityBranch echoLib noParamsDB (boundarySolution (1 / 2)) "Na+"
      = some .davies := by
  refine ⟨?_, ?_, ?_⟩
  · exact (claim2_activity_model_priority echoLib noParamsDB
      (boundarySolution (1 / 200)) "Na+" naclSalt rfl rfl).2.1 rfl (le_refl _)
  · exact (claim2_activity_model_priority echoLib noParamsDB
      (boundarySolution (1 / 10)) "Na+" naclSalt rfl rfl).2.2.1 rfl
      (by norm_num : (1 : ℚ) / 200 < 1 / 10) (le_refl _)
  · exact (claim2_activity_model_priority echoLib noParamsDB
      (boundarySolution (1 / 2)) "Na+" naclSalt rfl rfl).2.2.2.1 rfl
      (by norm_num : (1 : ℚ) / 10 < 1 / 2) (le_refl _)

/-- Claim C6: whatever the ionic strength, when the salt-matching loop finds
no salt containing the solute, `get_activity_coefficient` takes the warning
branch and returns exactly 1 (dimensionless) without raising. -/
theorem claim6_no_salt_returns_unit (lib : CorrelationLib) (db : ParamDB)
    (sol : Solution) (solute : String)
    (hion : (lookupComponent sol.components solute).isSome = true)
    (hsalt : findSalt solute sol.salt_list = none) :
    get_activity_coefficient lib db sol solute = .ok (.noSalt, 1) := by
  obtain ⟨ion, hion2⟩ := Option.isSome_iff_exists.mp hion
  simp [get_activity_coefficient, hion2, hsalt]

/-- Claim C6 witness: a K+ component whose decomposition contains only NaCl
yields unit activity coefficient through the no-salt warning branch. -/
theorem claim6_no_salt_returns_unit_witness :
    get_activity_coefficient echoLib noParamsDB strayIonSolution "K+"
      = .ok (.noSalt, 1) :=
  claim6_no_salt_returns_unit echoLib noParamsDB strayIonSolution "K+" rfl rfl

/-- Claim C10: a solute identifier that is not a key of the components
mapping makes `get_activity_coefficient` raise `KeyError` at the initial
component access, before any salt matching or fallback logic. -/
theorem claim10_unknown_solute_raises_keyerror (lib : CorrelationLib)
    (db : ParamDB) (sol : Solution) (solute : String)
    (h : lookupComponent sol.components solute = none) :
    get_activity_coefficient lib db sol solute = .error .keyError := by
  simp [get_activity_coefficient, h]

/-- Claim C10 witness: requesting Na+ of a solution whose components mapping
lacks Na+ raises `KeyError`, even though the salt list does contain a salt
(NaCl) that would match Na+. -/
theorem claim10_unknown_solute_raises_keyerror_witness :
    get_activity_coefficient echoLib allParamsDB strayIonSolution "Na+"
      = .error .keyError :=
  claim10_unknown_solute_raises_keyerror echoLib allParamsDB
    strayIonSolution "Na+" rfl

/-- The osmotic salt loop leaves the accumulator unchanged when every salt of
the list is the solvent pseudo-salt HOH. -/
theorem osmotic_foldl_all_hoh (lib : CorrelationLib) (db : ParamDB) (I : ℚ)
    (temp : String) (l : List (Salt × ℚ)) (acc : ℚ × ℚ)
    (h : ∀ p ∈ l, p.1.formula = "HOH") :
    l.foldl (osmotic_step lib db I temp) acc = acc := by
  induction l generalizing acc with
  | nil => rfl
  | cons a l ih =>
    rw [List.foldl_cons]
    have ha : a.1.formula = "HOH" := h a (List.mem_cons_self a l)
    have hstep : osmotic_step lib db I temp acc a = acc := by
      simp only [osmotic_step, if_pos ha]
    rw [hstep]
    exact ih _ fun p hp => h p (List.mem_cons_of_mem a hp)

/-- Claim C5: when the salt decomposition contains no salt other than the
solvent pseudo-salt HOH, both accumulators stay at zero and the final
`effective_osmotic_sum / molality_sum` step divides by zero; the result is
the undefined outcome (`none`), not a defined value or an explicit error. -/
theorem claim5_pure_solvent_zero_divide (lib : CorrelationLib) (db : ParamDB)
    (sol : Solution) (h : ∀ p ∈ sol.salt_conc_list, p.1.formula = "HOH") :
    get_osmotic_coefficient lib db sol = none := by
  simp only [get_osmotic_coefficient]
  rw [osmotic_foldl_all_hoh lib db sol.ionic_strength sol.temperature
    sol.salt_conc_list (0, 0) h]
  norm_num

/-- Claim C5 witness: a pure-water solution, whose decomposition is the single
pseudo-salt HOH, hits the unguarded zero-divide. -/
theorem claim5_pure_solvent_zero_divide_witness :
    get_osmotic_coefficient echoLib noParamsDB pureWaterSolution = none :=
  claim5_pure_solvent_zero_divide echoLib noParamsDB pureWaterSolution (by
    intro p hp
    simp only [pureWaterSolution, List.mem_singleton] at hp
    rw [hp]
    rfl)


/-- The osmotic salt loop computes, over any prefix, the pair of the weighted
sum of individual osmotic coefficients and the total weight, both restricted
to the non-HOH salts. -/
theorem osmotic_foldl_characterization (lib : CorrelationLib) (db : ParamDB)
    (I : ℚ) (temp : String) (l : List (Salt × ℚ)) (acc : ℚ × ℚ) :
    l.foldl (osmotic_step lib db I temp) acc
      = (acc.1 + ((l.filter fun p => !(p.1.formula == "HOH")).map
            fun p => p.2 * salt_osmotic_coefficient lib db I temp p.1 p.2).sum,
         acc.2 + ((l.filter fun p => !(p.1.formula == "HOH")).map
            fun p => p.2).sum) := by
  induction l generalizing acc with
  | nil => simp
  | cons a l ih =>
    rw [List.foldl_cons, ih]
    by_cases h : a.1.formula = "HOH"
    · have hstep : osmotic_step lib db I temp acc a = acc := by
        simp only [osmotic_step, if_pos h]
      rw [hstep]
      simp [h]
    · have hpa : (!(a.1.formula == "HOH")) = true := by simp [h]
      have hstep : osmotic_step lib db I temp acc a
          = (acc.1 + a.2 * salt_osmotic_coefficient lib db I temp a.1 a.2,
             acc.2 + a.2) := by
        simp only [osmotic_step, if_neg h, salt_osmotic_coefficient]
      rw [hstep]
      simp [List.filter_cons, hpa, add_assoc]

/-- Claim C3: `get_osmotic_coefficient` is the concentration-weighted average
over the non-HOH salts of the decomposition, where each salt's individual
coefficient is its Pitzer osmotic coefficient when activity Pitzer parameters
exist and 1 otherwise (there is no Debye-Hückel, Guntelberg or Davies branch:
the embedded function consults only `pitzer_parameters_activity`); and for
two non-HOH salts at equal nonzero concentration the result is the plain mean
of the two individual coefficients. -/
theorem claim3_osmotic_weighted_average :
    (∀ (lib : CorrelationLib) (db : ParamDB) (sol : Solution),
      get_osmotic_coefficient lib db sol =
        if ((sol.salt_conc_list.filter fun p => !(p.1.formula == "HOH")).map
              fun p => p.2).sum = 0 then none
        else some ((((sol.salt_conc_list.filter
                fun p => !(p.1.formula == "HOH")).map
              fun p => p.2 * salt_osmotic_coefficient lib db
                sol.ionic_strength sol.temperature p.1 p.2).sum)
          / ((sol.salt_conc_list.filter fun p => !(p.1.formula == "HOH")).map
              fun p => p.2).sum)) ∧
    (∀ (lib : CorrelationLib) (db : ParamDB) (sol : Solution) (A B : Salt)
      (c : ℚ), sol.salt_conc_list = [(A, c), (B, c)] →
      A.formula ≠ "HOH" → B.formula ≠ "HOH" → c ≠ 0 →
      get_osmotic_coefficient lib db sol =
        some ((salt_osmotic_coefficient lib db sol.ionic_strength
            sol.temperature A c
          + salt_osmotic_coefficient lib db sol.ionic_strength
            sol.temperature B c) / 2)) := by
  have hgen : ∀ (lib : CorrelationLib) (db : ParamDB) (sol : Solution),
      get_osmotic_coefficient lib db sol =
        if ((sol.salt_conc_list.filter fun p => !(p.1.formula == "HOH")).map
              fun p => p.2).sum = 0 then none
        else some ((((sol.salt_conc_list.filter
                fun p => !(p.1.formula == "HOH")).map
              fun p => p.2 * salt_osmotic_coefficient lib db
                sol.ionic_strength sol.temperature p.1 p.2).sum)
          / ((sol.salt_conc_list.filter fun p => !(p.1.formula == "HOH")).map
              fun p => p.2).sum) := by
    intro lib db sol
    simp only [get_osmotic_coefficient]
    rw [osmotic_foldl_characterization]
    simp
  refine ⟨hgen, ?_⟩
  intro lib db sol A B c hlist hA hB hc
  rw [hgen lib db sol, hlist]
  have hfil : ([(A, c), (B, c)].filter fun p => !(p.1.formula == "HOH"))
      = [(A, c), (B, c)] := by
    simp [hA, hB]
  rw [hfil]
  simp only [List.map_cons, List.map_nil, List.sum_cons, List.sum_nil]
  have hW : c + (c + 0) ≠ 0 := by
    intro h0
    apply hc
    linarith
  rw [if_neg hW]
  congr 1
  have hcc : c + c ≠ 0 := by
    intro h0
    apply hc
    linarith
  field_simp
  ring

/-- Claim C3 witness: a concrete mixture of NaCl and KBr at equal
concentration 3 mol/kg yields the plain mean of the two individually-computed
osmotic coefficients. -/
theorem claim3_osmotic_weighted_average_witness :
    get_osmotic_coefficient echoLib noParamsDB twoSaltSolution
      = some ((salt_osmotic_coefficient echoLib noParamsDB
          twoSaltSolution.ionic_strength twoSaltSolution.temperature
          naclSalt 3
        + salt_osmotic_coefficient echoLib noParamsDB
          twoSaltSolution.ionic_strength twoSaltSolution.temperature
          kbrSalt 3) / 2) :=
  claim3_osmotic_weighted_average.2 echoLib noParamsDB twoSaltSolution
    naclSalt kbrSalt 3 rfl (by decide) (by decide) (by norm_num)

/-- Claim C7: when apparent-molar-volume Pitzer parameters exist for the
dominant salt, the Pitzer head of `get_solute_volume` passes as molality the
SIMPLE MEAN of the two ions' molal amounts, selects alpha1/alpha2 by the
volume-specific same-sign stoichiometry table (both `nu ≥ 2`, then either
`nu ≥ 3`), and scales the apparent volume by the mean of the two ions' mole
counts each divided by its stoichiometric coefficient. -/
theorem claim7_volume_pitzer_head (lib : CorrelationLib) (db : ParamDB)
    (sol : Solution) (q : ℚ × ℚ × ℚ × ℚ × ℚ)
    (h : db.pitzer_parameters_volume sol.dominant_salt.formula = some q) :
    pitzer_volume_contribution lib db sol =
      lib.get_apparent_volume_pitzer sol.ionic_strength
        ((sol.amount_molal sol.dominant_salt.cation
          + sol.amount_molal sol.dominant_salt.anion) / 2)
        (if 2 ≤ sol.dominant_salt.nu_cation ∧ 2 ≤ sol.dominant_salt.nu_anion
         then if 3 ≤ sol.dominant_salt.nu_cation
              ∨ 3 ≤ sol.dominant_salt.nu_anion then 2 else 7 / 5
         else 2)
        (if 2 ≤ sol.dominant_salt.nu_cation ∧ 2 ≤ sol.dominant_salt.nu_anion
         then if 3 ≤ sol.dominant_salt.nu_cation
              ∨ 3 ≤ sol.dominant_salt.nu_anion then 50 else 12
         else 0)
        q.1 q.2.1 q.2.2.1 q.2.2.2.1 q.2.2.2.2
        sol.dominant_salt.z_cation sol.dominant_salt.z_anion
        sol.dominant_salt.nu_cation sol.dominant_salt.nu_anion
        sol.temperature
      * (sol.amount_mol sol.dominant_salt.cation
          / (sol.dominant_salt.nu_cation : ℚ)
        + sol.amount_mol sol.dominant_salt.anion
          / (sol.dominant_salt.nu_anion : ℚ)) / 2 := by
  simp only [pitzer_volume_contribution, h, alpha_volume]
  split_ifs <;> rfl

/-- Claim C7 witness: the Pitzer volume head evaluated on a concrete MgSO4
solution with a zero-valued apparent-volume correlation. -/
theorem claim7_volume_pitzer_head_witness :
    pitzer_volume_contribution echoLib allParamsDB mgso4Solution = 0 := by
  rw [claim7_volume_pitzer_head echoLib allParamsDB mgso4Solution
    (0, 0, 0, 0, 0) rfl]
  simp [echoLib]

/-- The per-solute loop of `get_solute_volume` adds, for each component, its
partial-molar-volume contribution (zero for water, for the Pitzer-accounted
salt ions and for species with no stored parameter). -/
theorem pmv_foldl_characterization (db : ParamDB) (s : Salt) (pc : Bool)
    (l : List (String × Solute)) (acc : ℚ) :
    l.foldl (pmv_step db s pc) acc
      = acc + (l.map fun p =>
          if p.1 = "H2O" ∨ p.1 = "HOH" then 0
          else if pc = true ∧ (p.1 = s.anion ∨ p.1 = s.cation) then 0
          else match db.partial_molar_volume p.1 with
            | some v => v * p.2.moles
            | none => 0).sum := by
  induction l generalizing acc with
  | nil => simp
  | cons a l ih =>
    rw [List.foldl_cons, ih, List.map_cons, List.sum_cons]
    have hstep : pmv_step db s pc acc a
        = acc + (if a.1 = "H2O" ∨ a.1 = "HOH" then 0
          else if pc = true ∧ (a.1 = s.anion ∨ a.1 = s.cation) then 0
          else match db.partial_molar_volume a.1 with
            | some v => v * a.2.moles
            | none => 0) := by
      simp only [pmv_step]
      by_cases h1 : a.1 = "H2O" ∨ a.1 = "HOH"
      · rw [if_pos h1, if_pos h1, add_zero]
      · rw [if_neg h1, if_neg h1]
        by_cases h2 : pc = true ∧ (a.1 = s.anion ∨ a.1 = s.cation)
        · rw [if_pos h2, if_pos h2, add_zero]
        · rw [if_neg h2, if_neg h2]
          cases hdb : db.partial_molar_volume a.1 with
          | none => rw [add_zero]
          | some v => rfl
    rw [hstep, add_assoc]

/-- Claim C8: `get_solute_volume` never raises — it totals the Pitzer head
plus, for every component other than water and (when Pitzer parameters exist
for the dominant salt) the dominant salt's own two ions, the stored partial
molar volume times the mole count, with a species lacking the parameter
contributing exactly zero. -/
theorem claim8_solute_volume_total (lib : CorrelationLib) (db : ParamDB)
    (sol : Solution) :
    get_solute_volume lib db sol
      = pitzer_volume_contribution lib db sol
        + (sol.components.map fun p =>
            if p.1 = "H2O" ∨ p.1 = "HOH" then 0
            else if (db.pitzer_parameters_volume
                  sol.dominant_salt.formula).isSome = true
                ∧ (p.1 = sol.dominant_salt.anion
                  ∨ p.1 = sol.dominant_salt.cation) then 0
            else match db.partial_molar_volume p.1 with
              | some v => v * p.2.moles
              | none => 0).sum := by
  simp only [get_solute_volume]
  exact pmv_foldl_characterization db sol.dominant_salt _ sol.components _

end PyEQL
